import Mathlib

/-!
Verification of the authorization and access-control core of the
privateGPT RBAC extension (`private_gpt/server/auth/*`,
`private_gpt/server/chat/enhanced_chat_router.py`).

The Python source is shallowly embedded: SQLAlchemy tables become lists of
rows, the database session becomes explicit state passing, JWT encoding is
modelled as a payload record plus a signature string, and fallible
operations return `Option`/`Except`.  Every definition mirrors the
corresponding Python function; doc comments name the file and symbol it
embeds.
-/

namespace PrivateGPT

/-- Embeds `UserRole` from `private_gpt/server/auth/models.py` (`class UserRole`).
The database column `users.role` is a string, but every code path that
writes it stores the `.value` of one of these three members, so the role
is modelled as the enumeration itself. -/
inductive UserRole where
  | superadmin
  | admin
  | user
deriving DecidableEq, Repr, Fintype

/-- The `.value` string of a `UserRole` member. -/
def UserRole.value : UserRole → String
  | .superadmin => "superadmin"
  | .admin => "admin"
  | .user => "user"

/-- Embeds `Permission` from `private_gpt/server/auth/models.py` (`class Permission`). -/
inductive Permission where
  | read_document
  | write_document
  | delete_document
  | ingest_document
  | chat
  | chat_with_context
  | manage_users
  | manage_models
  | view_system_logs
  | manage_system
  | manage_permissions
deriving DecidableEq, Repr, Fintype

/-- The `.value` string of a `Permission` member. -/
def Permission.value : Permission → String
  | .read_document => "read_document"
  | .write_document => "write_document"
  | .delete_document => "delete_document"
  | .ingest_document => "ingest_document"
  | .chat => "chat"
  | .chat_with_context => "chat_with_context"
  | .manage_users => "manage_users"
  | .manage_models => "manage_models"
  | .view_system_logs => "view_system_logs"
  | .manage_system => "manage_system"
  | .manage_permissions => "manage_permissions"

/-- Embeds `ROLE_PERMISSIONS` from `private_gpt/server/auth/models.py`
(lines 183-212): the fixed role-to-permission table. -/
def ROLE_PERMISSIONS : UserRole → List Permission
  | .superadmin =>
      [.read_document, .write_document, .delete_document, .ingest_document,
       .chat, .chat_with_context, .manage_users, .manage_models,
       .view_system_logs, .manage_system, .manage_permissions]
  | .admin =>
      [.read_document, .write_document, .delete_document, .ingest_document,
       .chat, .chat_with_context, .manage_users, .view_system_logs]
  | .user =>
      [.read_document, .chat, .chat_with_context]

/-- A row of the `users` table (`class User` in
`private_gpt/server/auth/models.py`).  Timestamps and relationship fields
are omitted: no authorization decision reads them. -/
structure User where
  id : Nat
  username : String
  email : String
  hashed_password : String
  role : UserRole
  is_active : Bool
deriving DecidableEq, Repr

/-- Embeds `AuthService.get_user_permissions` (`auth_service.py` lines 99-102):
the permission strings carried by the user's role. -/
def get_user_permissions (user : User) : List String :=
  (ROLE_PERMISSIONS user.role).map Permission.value

/-- Embeds `AuthService.has_permission` (`auth_service.py` lines 104-107). -/
def has_permission (user : User) (permission : Permission) : Bool :=
  (get_user_permissions user).contains permission.value

/-- A row of the `documents` table (`class Document` in
`private_gpt/server/auth/models.py`).  `id` is the string primary key
supplied by ingestion; timestamps are omitted. -/
structure Document where
  id : String
  filename : String
  owner_id : Nat
  is_public : Bool
deriving DecidableEq, Repr

/-- A row of the `user_document_permissions` association table
(`models.py` lines 40-46): an explicit grant of one permission string on
one document to one user. -/
structure DocumentGrantRow where
  user_id : Nat
  document_id : String
  permission : String
deriving DecidableEq, Repr

/-- The document-side database state: the `documents` table and the
`user_document_permissions` table. -/
structure DocDB where
  documents : List Document
  grants : List DocumentGrantRow
deriving DecidableEq, Repr

/-- Embeds `AuthService.can_access_document` (`auth_service.py` lines 109-137).
The branch structure mirrors the Python exactly: each `if` returns, and
the public-read branch returns `has_permission user read_document`
directly (it does not fall through to the explicit-grant query). -/
def can_access_document (db : DocDB) (user : User) (document_id : String)
    (permission : Permission) : Bool :=
  match db.documents.find? (fun d => d.id == document_id) with
  | none => false
  | some document =>
    if user.role.value == UserRole.superadmin.value then true
    else if document.owner_id == user.id then true
    else if document.is_public && permission == Permission.read_document then
      has_permission user .read_document
    else
      (db.grants.find? (fun r =>
        r.user_id == user.id && r.document_id == document_id &&
        r.permission == permission.value)).isSome

/-- The six-rule precedence cascade exactly as the specification words it
(spec §4.4 `canAccess`): rule 4 matches only when the caller's role also
carries READ_DOCUMENT, and a non-matching rule falls through to the
explicit-grant rule 5.  Written from the spec, to be compared with
`can_access_document` (written from the code). -/
def can_access_document_spec (db : DocDB) (user : User) (document_id : String)
    (permission : Permission) : Bool :=
  match db.documents.find? (fun d => d.id == document_id) with
  | none => false
  | some document =>
    if user.role.value == UserRole.superadmin.value then true
    else if document.owner_id == user.id then true
    else if document.is_public && permission == Permission.read_document &&
            has_permission user .read_document then true
    else if (db.grants.find? (fun r =>
        r.user_id == user.id && r.document_id == document_id &&
        r.permission == permission.value)).isSome then true
    else false

/-- Embeds `AuthService.grant_document_access` (`auth_service.py` lines 139-160):
delete every grant row for the (user, document) pair, then insert one row
per permission in the new set.  The list models the table contents after
the enclosing transaction commits. -/
def grant_document_access (grants : List DocumentGrantRow) (user_id : Nat)
    (document_id : String) (permissions : List Permission) : List DocumentGrantRow :=
  grants.filter (fun r => !(r.user_id == user_id && r.document_id == document_id))
    ++ permissions.map (fun p => ⟨user_id, document_id, p.value⟩)

/-- Embeds `AuthService.revoke_document_access` (`auth_service.py` lines 162-172). -/
def revoke_document_access (grants : List DocumentGrantRow) (user_id : Nat)
    (document_id : String) : List DocumentGrantRow :=
  grants.filter (fun r => !(r.user_id == user_id && r.document_id == document_id))

/-- The payload of a JWT as built by `AuthService.create_access_token`
(`auth_service.py` lines 77-83): subject, user id, role, permission
snapshot, expiry.  `sub` is optional because `verify_token` guards
against payloads without it; `exp` is a Unix timestamp in seconds. -/
structure JwtPayload where
  sub : Option String
  user_id : Nat
  role : UserRole
  permissions : List String
  exp : Nat
deriving DecidableEq, Repr

/-- Abstract model of the HS256 signature over a payload: a string
determined by the secret and the payload fields.  Forgery resistance of
the real HMAC is not modelled; no claim here depends on it. -/
def sign (secret : String) (p : JwtPayload) : String :=
  secret ++ "." ++ toString p.exp ++ "." ++ p.sub.getD "" ++ "." ++
    toString p.user_id ++ "." ++ p.role.value ++ "." ++
    String.intercalate "," p.permissions

/-- A signed token: payload plus signature, as produced by `jwt.encode`. -/
structure Jwt where
  payload : JwtPayload
  sig : String
deriving DecidableEq, Repr

/-- Embeds `jwt.decode(token, secret, algorithms=[HS256])` as used in
`verify_token`: returns the payload when the signature matches and the
expiry is in the future (PyJWT raises `ExpiredSignatureError` when
`exp <= now`), and `none` when either check fails (`PyJWTError`). -/
def jwt_decode (secret : String) (now : Nat) (token : Jwt) : Option JwtPayload :=
  if token.sig == sign secret token.payload && now < token.payload.exp then
    some token.payload
  else
    none

/-- Embeds `access_token_expire_minutes` from `auth_service.py` line 23. -/
def access_token_expire_minutes : Nat := 30

/-- Embeds `AuthService.create_access_token` (`auth_service.py` lines 72-86):
embeds subject, user id, role, the permission snapshot computed now, and
an expiry 30 minutes from `now` (seconds). -/
def create_access_token (secret : String) (user : User) (now : Nat) : Jwt :=
  let permissions := get_user_permissions user
  let expire := now + access_token_expire_minutes * 60
  let payload : JwtPayload :=
    { sub := some user.username, user_id := user.id, role := user.role,
      permissions := permissions, exp := expire }
  { payload := payload, sig := sign secret payload }

/-- Embeds `AuthService.verify_token` (`auth_service.py` lines 88-97): decode,
then reject payloads whose `sub` is missing. -/
def verify_token (secret : String) (now : Nat) (token : Jwt) : Option JwtPayload :=
  match jwt_decode secret now token with
  | none => none
  | some payload =>
    match payload.sub with
    | none => none
    | some _ => some payload

/-- Abstract model of `bcrypt.hashpw` as used through
`AuthService._hash_password`: an injective tag of the password.  The
salted-hash internals are not modelled; claims only need that a stored
hash matches exactly the password it was made from. -/
def hash_password (password : String) : String :=
  "bcrypt$" ++ password

/-- Embeds `AuthService._verify_password` (`auth_service.py` lines 29-31),
over the abstract hash model. -/
def verify_password (plain_password : String) (hashed_password : String) : Bool :=
  hashed_password == hash_password plain_password

/-- Embeds `AuthService.get_user_by_username` (`auth_service.py` lines 64-66). -/
def get_user_by_username (users : List User) (username : String) : Option User :=
  users.find? (fun u => u.username == username)

/-- Embeds `AuthService.authenticate_user` (`auth_service.py` lines 57-62):
look up by username, compare the password against the stored hash; a
lookup miss or mismatch returns `none`.  The `is_active` flag is not
consulted here. -/
def authenticate_user (users : List User) (username : String)
    (password : String) : Option User :=
  match get_user_by_username users username with
  | none => none
  | some user =>
    if verify_password password user.hashed_password then some user else none

/-- The two error outcomes of the auth dependencies in
`private_gpt/server/auth/auth.py`: `NOT_AUTHENTICATED` (HTTP 401) and
`NOT_AUTHORIZED` (HTTP 403). -/
inductive AuthError where
  | notAuthenticated
  | notAuthorized
deriving DecidableEq, Repr

/-- Embeds `get_current_user` (`auth.py` lines 30-53): verify the token, read
its subject, fetch that user from the database, and reject missing or
inactive users.  Every failure is `NOT_AUTHENTICATED`. -/
def get_current_user (secret : String) (now : Nat) (users : List User)
    (token : Jwt) : Except AuthError User :=
  match verify_token secret now token with
  | none => .error .notAuthenticated
  | some token_data =>
    let username := (token_data.sub).getD ""
    if username == "" then .error .notAuthenticated
    else
      match get_user_by_username users username with
      | none => .error .notAuthenticated
      | some user =>
        if user.is_active then .ok user else .error .notAuthenticated

/-- Embeds `require_permission` (`auth.py` lines 55-62): resolve the current
user through `get_current_user`, then check `has_permission` on the user
record just fetched from the database (not on the token's snapshot). -/
def require_permission (secret : String) (now : Nat) (users : List User)
    (token : Jwt) (permission : Permission) : Except AuthError User :=
  match get_current_user secret now users token with
  | .error e => .error e
  | .ok current_user =>
    if has_permission current_user permission then .ok current_user
    else .error .notAuthorized

/-- Deduplication by document id, modelling the
`{doc.id: doc for doc in ...}` dictionary of
`get_user_accessible_documents` (`auth_service.py` line 209).  The
dictionary keeps first-insertion order; duplicate keys carry identical
rows fetched from the same table, so keeping the first occurrence is
faithful. -/
def dedup_by_id (docs : List Document) : List Document :=
  docs.foldl
    (fun acc d => if acc.any (fun e => e.id == d.id) then acc else acc ++ [d])
    []

/-- Embeds `AuthService.get_user_accessible_documents` (`auth_service.py` lines
187-210): SUPERADMIN sees every document; otherwise owned ∪ public ∪
explicitly granted, deduplicated by id. -/
def get_user_accessible_documents (db : DocDB) (user : User) : List Document :=
  if user.role.value == UserRole.superadmin.value then db.documents
  else
    let owned_docs := db.documents.filter (fun d => d.owner_id == user.id)
    let public_docs := db.documents.filter (fun d => d.is_public)
    let doc_ids :=
      ((db.grants.filter (fun r => r.user_id == user.id)).map
        (fun r => r.document_id)).dedup
    let permitted_docs := db.documents.filter (fun d => doc_ids.contains d.id)
    dedup_by_id (owned_docs ++ public_docs ++ permitted_docs)

/-- Embeds `ContextFilter` from `private_gpt/open_ai/extensions/context_filter.py`
(upstream privateGPT, consumed by the enhanced chat router): a pydantic
model holding an optional list of document ids. -/
structure ContextFilter where
  docs_ids : Option (List String)
deriving DecidableEq, Repr

/-- The context-filter narrowing of `enhanced_chat_completion`
(`enhanced_chat_router.py` lines 113-127).  `filtered` starts as the
request's own filter; narrowing happens only when `use_context` is true
AND a filter object is present.  A present filter with a non-empty
`docs_ids` is replaced by the set intersection with the accessible ids
(Python `list(set(..) & set(..))`, modelled as an order-preserving
deduplicated filter); a present filter with empty or missing `docs_ids`
is replaced by all accessible ids; an absent filter is passed through
unchanged. -/
def enhanced_chat_filter (db : DocDB) (user : User) (use_context : Bool)
    (context_filter : Option ContextFilter) : Option ContextFilter :=
  if use_context then
    match context_filter with
    | some f =>
      let accessible_doc_ids :=
        (get_user_accessible_documents db user).map (fun d => d.id)
      match f.docs_ids with
      | some ids =>
        if ids.isEmpty then some ⟨some accessible_doc_ids⟩
        else some ⟨some ((ids.filter
          (fun i => accessible_doc_ids.contains i)).dedup)⟩
      | none => some ⟨some accessible_doc_ids⟩
    | none => context_filter
  else context_filter

/-- Error taxonomy for fallible registry operations: `conflict` models a
uniqueness Conflict raised by this core (as `create_user` does via
`ValueError`), `storageFailure` models an exception propagating from the
storage layer (SQLAlchemy `IntegrityError`). -/
inductive DbError where
  | conflict
  | storageFailure
deriving DecidableEq, Repr

/-- Embeds `AuthService.create_document_record` (`auth_service.py` lines
174-185).  The Python body performs no duplicate check of its own
(contrast `create_user`, lines 33-41, which raises `ValueError` on a
duplicate): it constructs the row and commits.  `documents.id` is the
primary key (`models.py` line 69), so committing a duplicate id makes
the storage layer raise `IntegrityError`, modelled as the generic
`DbError.storageFailure` — not `DbError.conflict`. -/
def create_document_record (documents : List Document)
    (doc_id : String) (filename : String) (owner_id : Nat)
    (is_public : Bool) : Except DbError (List Document × Document) :=
  let document : Document :=
    { id := doc_id, filename := filename, owner_id := owner_id,
      is_public := is_public }
  if documents.any (fun d => d.id == doc_id) then .error .storageFailure
  else .ok (documents ++ [document], document)

/-- A row of the `llm_models` table (`class LLMModel` in `models.py`). -/
structure LLMModel where
  id : Nat
  name : String
  provider : String
  model_path : String
  is_active : Bool
deriving DecidableEq, Repr

/-- A row of the `user_model_access` table (`class UserModelAccess` in
`models.py`): an explicit (user, model) entitlement. -/
structure UserModelAccess where
  user_id : Nat
  model_id : Nat
deriving DecidableEq, Repr

/-- Embeds `AuthService.get_llm_models` (`auth_service.py` lines 258-260): all
models whose active flag is set. -/
def get_llm_models (models : List LLMModel) : List LLMModel :=
  models.filter (fun m => m.is_active)

/-- Embeds `AuthService.get_user_accessible_models` (`auth_service.py` lines
262-275): SUPERADMIN sees `get_llm_models`; anyone else sees the join of
`llm_models` with `user_model_access` restricted to their user id and to
active models. -/
def get_user_accessible_models (models : List LLMModel)
    (access : List UserModelAccess) (user : User) : List LLMModel :=
  if user.role.value == UserRole.superadmin.value then get_llm_models models
  else
    models.filter (fun m =>
      access.any (fun a => a.user_id == user.id && a.model_id == m.id) &&
      m.is_active)

end PrivateGPT

namespace PrivateGPT

/-- Comparing role value strings is the same as comparing roles. -/
theorem role_value_superadmin (r : UserRole) :
    (r.value == UserRole.superadmin.value) = (r == UserRole.superadmin) := by
  cases r <;> rfl

/-- Every role in the table carries READ_DOCUMENT, so the public-read
branch of `can_access_document` can never return false. -/
theorem every_role_reads (user : User) :
    has_permission user .read_document = true := by
  cases user with
  | mk id username email hashed_password role is_active => cases role <;> rfl

/-- After `grant_document_access`, the rows for the (user, document) pair
are exactly one row per permission in the new set. -/
theorem grant_document_access_filter (grants : List DocumentGrantRow)
    (user_id : Nat) (document_id : String) (permissions : List Permission) :
    (grant_document_access grants user_id document_id permissions).filter
      (fun r => r.user_id == user_id && r.document_id == document_id)
      = permissions.map (fun p => ⟨user_id, document_id, p.value⟩) := by
  unfold grant_document_access
  rw [List.filter_append]
  have h1 : (grants.filter
      (fun r => !(r.user_id == user_id && r.document_id == document_id))).filter
      (fun r => r.user_id == user_id && r.document_id == document_id) = [] := by
    rw [List.filter_eq_nil_iff]
    intro a ha
    have := List.of_mem_filter ha
    simp only [Bool.not_eq_true', Bool.and_eq_false_iff] at this
    simp only [Bool.and_eq_true, beq_iff_eq, not_and]
    intro hu hd
    rcases this with h | h <;> simp [hu, hd] at h
  have h2 : (permissions.map
      (fun p => (⟨user_id, document_id, p.value⟩ : DocumentGrantRow))).filter
      (fun r => r.user_id == user_id && r.document_id == document_id)
      = permissions.map (fun p => ⟨user_id, document_id, p.value⟩) := by
    rw [List.filter_eq_self]
    intro a ha
    obtain ⟨p, _, hp⟩ := List.mem_map.mp ha
    subst hp
    simp
  rw [h1, h2, List.nil_append]

/-- Lemma: `get_current_user` looks only at the subject of the verified payload:
once `verify_token` returns a payload, the rest of the computation is a
function of `payload.sub` and the user table alone. -/
theorem get_current_user_eq_lookup (secret : String) (now : Nat)
    (users : List User) (token : Jwt) (payload : JwtPayload)
    (hv : verify_token secret now token = some payload) :
    get_current_user secret now users token =
      (if payload.sub.getD "" == "" then .error .notAuthenticated
       else
         match get_user_by_username users (payload.sub.getD "") with
         | none => .error .notAuthenticated
         | some user =>
           if user.is_active then .ok user else .error .notAuthenticated) := by
  unfold get_current_user
  rw [hv]

/-- When the signature matches and the expiry is in the future, decoding
returns the token's own payload. -/
theorem jwt_decode_valid (secret : String) (now : Nat) (token : Jwt)
    (hs : token.sig = sign secret token.payload)
    (he : now < token.payload.exp) :
    jwt_decode secret now token = some token.payload := by
  unfold jwt_decode
  rw [hs]
  simp [he]

/-- C7: the role-to-permission table maps every role to a non-empty set,
SUPERADMIN's set contains ADMIN's, ADMIN's contains USER's, USER's set
contains none of MANAGE_USERS, MANAGE_MODELS, MANAGE_SYSTEM,
MANAGE_PERMISSIONS, and SUPERADMIN's set contains every defined
Permission. -/
theorem role_permission_table_invariants :
    (∀ r : UserRole, ROLE_PERMISSIONS r ≠ []) ∧
    (∀ p : Permission, p ∈ ROLE_PERMISSIONS .admin → p ∈ ROLE_PERMISSIONS .superadmin) ∧
    (∀ p : Permission, p ∈ ROLE_PERMISSIONS .user → p ∈ ROLE_PERMISSIONS .admin) ∧
    (Permission.manage_users ∉ ROLE_PERMISSIONS .user ∧
     Permission.manage_models ∉ ROLE_PERMISSIONS .user ∧
     Permission.manage_system ∉ ROLE_PERMISSIONS .user ∧
     Permission.manage_permissions ∉ ROLE_PERMISSIONS .user) ∧
    (∀ p : Permission, p ∈ ROLE_PERMISSIONS .superadmin) := by
  decide

/-- C1: `can_access_document` behaves exactly as the six-rule precedence
cascade of the specification on every database state, user, document id
and permission (document absent → false; SUPERADMIN → true; owner → true;
public ∧ READ_DOCUMENT ∧ role carries READ_DOCUMENT → true; explicit grant
→ true; otherwise false) — including the consequence that whenever rule 4
fails to match, an explicit grant still decides the outcome. -/
theorem can_access_document_precedence (db : DocDB) (user : User)
    (document_id : String) (permission : Permission) :
    can_access_document db user document_id permission
      = can_access_document_spec db user document_id permission := by
  unfold can_access_document can_access_document_spec
  have hr : has_permission user .read_document = true := every_role_reads user
  cases db.documents.find? (fun d => d.id == document_id) with
  | none => rfl
  | some document =>
    simp only [hr, Bool.and_true]
    by_cases h1 : user.role.value == UserRole.superadmin.value
    · simp [h1]
    · simp only [h1]
      by_cases h2 : document.owner_id == user.id
      · simp [h2]
      · simp only [h2]
        by_cases h3 : document.is_public && permission == Permission.read_document
        · simp [h3, hr]
        · simp only [h3]
          by_cases h4 : (db.grants.find? (fun r =>
              r.user_id == user.id && r.document_id == document_id &&
              r.permission == permission.value)).isSome
          · simp [h4]
          · simp [h4]

/-- C5: granting document access replaces the full grant set for the
(user, document) pair — afterwards the rows for the pair are exactly one
row per permission in the new set; in particular granting
{READ_DOCUMENT} and then {WRITE_DOCUMENT} leaves exactly the single
WRITE_DOCUMENT row. -/
theorem grant_document_access_replaces (grants : List DocumentGrantRow)
    (user_id : Nat) (document_id : String) (permissions : List Permission) :
    ((grant_document_access grants user_id document_id permissions).filter
      (fun r => r.user_id == user_id && r.document_id == document_id)
      = permissions.map (fun p => ⟨user_id, document_id, p.value⟩)) ∧
    ((grant_document_access
        (grant_document_access grants user_id document_id [.read_document])
        user_id document_id [.write_document]).filter
      (fun r => r.user_id == user_id && r.document_id == document_id)
      = [⟨user_id, document_id, "write_document"⟩]) := by
  refine ⟨grant_document_access_filter grants user_id document_id permissions, ?_⟩
  exact grant_document_access_filter
    (grant_document_access grants user_id document_id [.read_document])
    user_id document_id [.write_document]

/-- C6: issuing a token and verifying it before expiry round-trips the
exact subject, user id, role and permission snapshot computed at
issuance; verifying at or after the expiry (issuance + 30 minutes)
fails, and `get_current_user` then reports Unauthenticated. -/
theorem token_round_trip (secret : String) (user : User) (now t : Nat)
    (users : List User) :
    (t < now + access_token_expire_minutes * 60 →
      verify_token secret t (create_access_token secret user now)
        = some { sub := some user.username, user_id := user.id,
                 role := user.role, permissions := get_user_permissions user,
                 exp := now + access_token_expire_minutes * 60 }) ∧
    (now + access_token_expire_minutes * 60 ≤ t →
      verify_token secret t (create_access_token secret user now) = none) ∧
    (now + access_token_expire_minutes * 60 ≤ t →
      get_current_user secret t users (create_access_token secret user now)
        = .error .notAuthenticated) := by
  refine ⟨fun h => ?_, fun h => ?_, fun h => ?_⟩
  · simp [create_access_token, verify_token, jwt_decode, h]
  · simp [create_access_token, verify_token, jwt_decode, Nat.not_lt.mpr h]
  · simp [get_current_user, create_access_token, verify_token, jwt_decode,
      Nat.not_lt.mpr h]

/-- A concrete user used to instantiate witnesses. -/
def witnessUser : User :=
  { id := 1, username := "alice", email := "alice@example.com",
    hashed_password := hash_password "password123", role := .user,
    is_active := true }

/-- Witness for C6 at a concrete user, secret and times 1 (before expiry)
and 1800 (at expiry). -/
theorem token_round_trip_witness :
    verify_token "s" 1 (create_access_token "s" witnessUser 0)
      = some { sub := some witnessUser.username, user_id := witnessUser.id,
               role := witnessUser.role,
               permissions := get_user_permissions witnessUser,
               exp := 0 + access_token_expire_minutes * 60 } ∧
    verify_token "s" 1800 (create_access_token "s" witnessUser 0) = none ∧
    get_current_user "s" 1800 [witnessUser]
      (create_access_token "s" witnessUser 0) = .error .notAuthenticated :=
  ⟨(token_round_trip "s" witnessUser 0 1 []).1 (by decide),
   (token_round_trip "s" witnessUser 0 1800 []).2.1 (by decide),
   (token_round_trip "s" witnessUser 0 1800 [witnessUser]).2.2 (by decide)⟩

/-- C10: a token whose decoded payload has no `sub` field fails
verification — `verify_token` returns `none` — regardless of signature
and expiry. -/
theorem verify_token_requires_sub (secret : String) (now : Nat) (token : Jwt)
    (h : token.payload.sub = none) :
    verify_token secret now token = none := by
  unfold verify_token jwt_decode
  split
  · rfl
  · next payload heq =>
    split at heq
    · injection heq with h2
      subst h2
      rw [h]
    · cases heq

/-- A concrete payload without a subject, with a future expiry. -/
def noSubPayload : JwtPayload :=
  { sub := none, user_id := 1, role := .user, permissions := ["chat"],
    exp := 1000 }

/-- A token over `noSubPayload` carrying a valid signature. -/
def noSubToken : Jwt :=
  { payload := noSubPayload, sig := sign "s" noSubPayload }

/-- Witness for C10: the concrete no-subject token decodes successfully
(valid signature, unexpired) yet `verify_token` rejects it. -/
theorem verify_token_requires_sub_witness :
    jwt_decode "s" 0 noSubToken = some noSubPayload ∧
    verify_token "s" 0 noSubToken = none :=
  ⟨jwt_decode_valid "s" 0 noSubToken rfl (by decide),
   verify_token_requires_sub "s" 0 noSubToken rfl⟩

/-- A concrete inactive user holding the hash of a known password. -/
def inactiveUser : User :=
  { id := 1, username := "carol", email := "carol@example.com",
    hashed_password := hash_password "correct-password", role := .user,
    is_active := false }

/-- C3 counterexample: `authenticate_user` accepts correct credentials of
a user whose active flag is false, returning the user rather than
`none`. -/
theorem authenticate_user_ignores_active_flag :
    inactiveUser.is_active = false ∧
    authenticate_user [inactiveUser] "carol" "correct-password"
      = some inactiveUser :=
  ⟨rfl, rfl⟩

/-- C3 amended: `authenticate_user` returns the stored user whenever the
username is found and the password matches, without consulting the
active flag; inactive users are instead rejected at token-verification
time — `get_current_user` only ever returns users whose active flag is
true. -/
theorem authenticate_user_amended (users : List User)
    (username password : String) (u : User) (secret : String) (now : Nat)
    (token : Jwt) (v : User)
    (hfind : get_user_by_username users username = some u)
    (hpw : verify_password password u.hashed_password = true)
    (hok : get_current_user secret now users token = .ok v) :
    authenticate_user users username password = some u ∧
    v.is_active = true := by
  constructor
  · simp [authenticate_user, hfind, hpw]
  · unfold get_current_user at hok
    cases hv : verify_token secret now token with
    | none => rw [hv] at hok; exact Except.noConfusion hok
    | some payload =>
      rw [hv] at hok
      simp only at hok
      by_cases hu : (payload.sub.getD "" == "") = true
      · rw [if_pos hu] at hok
        exact Except.noConfusion hok
      · rw [if_neg hu] at hok
        cases hfind2 : get_user_by_username users (payload.sub.getD "") with
        | none =>
          rw [hfind2] at hok
          exact Except.noConfusion hok
        | some user =>
          rw [hfind2] at hok
          simp only at hok
          by_cases ha : user.is_active = true
          · rw [if_pos ha] at hok
            injection hok with h'
            subst h'
            exact ha
          · rw [if_neg ha] at hok
            exact Except.noConfusion hok

/-- A concrete administrator, as recorded at token-issuance time. -/
def danaAdmin : User :=
  { id := 3, username := "dana", email := "dana@example.com",
    hashed_password := hash_password "pw987654", role := .admin,
    is_active := true }

/-- The same user after a role change to USER (the database row at
request time). -/
def danaDemoted : User :=
  { danaAdmin with role := .user }

/-- C4 counterexample: a token issued while the user was ADMIN carries
MANAGE_USERS in its snapshot and is still unexpired at time 60, yet
`require_permission` rejects MANAGE_USERS because the user's current
database role is USER — the revocation takes effect before the token
expires, contradicting the claim that the snapshot governs for the
token's lifetime. -/
theorem require_permission_ignores_snapshot :
    "manage_users" ∈ (create_access_token "s" danaAdmin 0).payload.permissions ∧
    60 < (create_access_token "s" danaAdmin 0).payload.exp ∧
    require_permission "s" 60 [danaDemoted]
      (create_access_token "s" danaAdmin 0) .manage_users
      = .error .notAuthorized := by
  refine ⟨by decide, by decide, by rfl⟩

/-- C4 amended: authorization decisions re-derive permissions from the
user's current database role on every request.  Any two valid unexpired
tokens with the same subject produce the same `require_permission`
outcome regardless of their embedded snapshots, and when the current
role lacks the permission the request is rejected Unauthorized even
while an unexpired token still carries it. -/
theorem require_permission_amended (secret : String) (now : Nat)
    (users : List User) (t1 t2 : Jwt) (perm : Permission) (u : User)
    (hsub : t1.payload.sub = t2.payload.sub)
    (hs1 : t1.sig = sign secret t1.payload)
    (hs2 : t2.sig = sign secret t2.payload)
    (he1 : now < t1.payload.exp) (he2 : now < t2.payload.exp)
    (hok : get_current_user secret now users t1 = .ok u)
    (hp : has_permission u perm = false) :
    require_permission secret now users t1 perm
      = require_permission secret now users t2 perm ∧
    require_permission secret now users t1 perm
      = .error .notAuthorized := by
  have d1 := jwt_decode_valid secret now t1 hs1 he1
  have d2 := jwt_decode_valid secret now t2 hs2 he2
  have v1 : verify_token secret now t1
      = match t1.payload.sub with
        | none => none
        | some _ => some t1.payload := by
    unfold verify_token
    rw [d1]
  have v2 : verify_token secret now t2
      = match t2.payload.sub with
        | none => none
        | some _ => some t2.payload := by
    unfold verify_token
    rw [d2]
  have g : get_current_user secret now users t1
      = get_current_user secret now users t2 := by
    cases hsx : t1.payload.sub with
    | none =>
      have hsy : t2.payload.sub = none := by rw [← hsub]; exact hsx
      unfold get_current_user
      rw [v1, v2, hsx, hsy]
    | some s =>
      have hsy : t2.payload.sub = some s := by rw [← hsub]; exact hsx
      unfold get_current_user
      rw [v1, v2, hsx, hsy]
      dsimp only
      rw [hsx, hsy]
  have hrej : require_permission secret now users t1 perm
      = .error .notAuthorized := by
    unfold require_permission
    rw [hok]
    simp [hp]
  exact ⟨by unfold require_permission; rw [g], hrej⟩

/-- A hand-built unexpired token for "dana" whose snapshot is the empty
permission list, used to exercise snapshot-independence. -/
def demotedSnapshotPayload : JwtPayload :=
  { sub := some "dana", user_id := 3, role := .user, permissions := [],
    exp := 1800 }

/-- The signed token over `demotedSnapshotPayload`. -/
def demotedSnapshotToken : Jwt :=
  { payload := demotedSnapshotPayload, sig := sign "s" demotedSnapshotPayload }

/-- Witness for C4's amended claim: the admin-issued token and the
empty-snapshot token for the same subject decide identically, and both
are rejected Unauthorized once the database role is USER. -/
theorem require_permission_amended_witness :
    require_permission "s" 60 [danaDemoted]
      (create_access_token "s" danaAdmin 0) .manage_users
      = require_permission "s" 60 [danaDemoted] demotedSnapshotToken
        .manage_users ∧
    require_permission "s" 60 [danaDemoted]
      (create_access_token "s" danaAdmin 0) .manage_users
      = .error .notAuthorized :=
  require_permission_amended "s" 60 [danaDemoted]
    (create_access_token "s" danaAdmin 0) demotedSnapshotToken
    .manage_users danaDemoted rfl rfl rfl (by decide) (by decide) rfl rfl

/-- A concrete active user, used to exercise `get_current_user` and the
model-entitlement queries. -/
def activeUser : User :=
  { id := 2, username := "bob", email := "bob@example.com",
    hashed_password := hash_password "pw123456", role := .user,
    is_active := true }

/-- A concrete non-superadmin user who owns one private document. -/
def chatUser : User :=
  { id := 5, username := "eve", email := "eve@example.com",
    hashed_password := hash_password "pw555555", role := .user,
    is_active := true }

/-- A database with exactly `chatUser`'s private document and no
grants. -/
def chatDb : DocDB :=
  { documents := [{ id := "d1", filename := "f.txt", owner_id := 5,
                    is_public := false }],
    grants := [] }

/-- C2 counterexample: for `chatUser` the accessible set is `["d1"]`,
yet with context enabled and the request's filter absent the narrowing
returns the absent filter unchanged (no restriction at all) instead of
the accessible set. -/
theorem enhanced_chat_filter_absent_not_narrowed :
    (get_user_accessible_documents chatDb chatUser).map (fun d => d.id)
      = ["d1"] ∧
    enhanced_chat_filter chatDb chatUser true none = none := by
  exact ⟨rfl, rfl⟩

/-- C2 amended: with context enabled and a filter object present, a
non-empty requested set narrows to its intersection with the accessible
ids (possibly empty), and an empty or missing requested list is replaced
by exactly the accessible ids; but an absent filter object is passed
through unchanged — it is not replaced by the accessible set. -/
theorem enhanced_chat_filter_amended (db : DocDB) (user : User)
    (ids : List String) (hne : ids ≠ []) :
    (∃ l, enhanced_chat_filter db user true (some ⟨some ids⟩)
        = some ⟨some l⟩ ∧
      ∀ x, x ∈ l ↔ (x ∈ ids ∧
        x ∈ (get_user_accessible_documents db user).map (fun d => d.id))) ∧
    enhanced_chat_filter db user true (some ⟨some []⟩)
      = some ⟨some ((get_user_accessible_documents db user).map
          (fun d => d.id))⟩ ∧
    enhanced_chat_filter db user true (some ⟨none⟩)
      = some ⟨some ((get_user_accessible_documents db user).map
          (fun d => d.id))⟩ ∧
    enhanced_chat_filter db user true none = none := by
  refine ⟨⟨(ids.filter (fun i =>
      ((get_user_accessible_documents db user).map (fun d => d.id)).contains
        i)).dedup, ?_, ?_⟩, ?_, rfl, rfl⟩
  · simp only [enhanced_chat_filter, if_true]
    rw [if_neg]
    simp [List.isEmpty_iff, hne]
  · intro x
    simp [List.mem_dedup, List.mem_filter]
  · simp [enhanced_chat_filter]

/-- Witness for C2's amended claim at the concrete database: the
requested set `["d1", "dX"]` narrows to its intersection with the
accessible ids, the empty and missing requested sets give exactly the
accessible ids, and the absent filter passes through. -/
theorem enhanced_chat_filter_amended_witness :
    (∃ l, enhanced_chat_filter chatDb chatUser true
        (some ⟨some ["d1", "dX"]⟩) = some ⟨some l⟩ ∧
      ∀ x, x ∈ l ↔ (x ∈ ["d1", "dX"] ∧
        x ∈ (get_user_accessible_documents chatDb chatUser).map
          (fun d => d.id))) ∧
    enhanced_chat_filter chatDb chatUser true (some ⟨some []⟩)
      = some ⟨some ((get_user_accessible_documents chatDb chatUser).map
          (fun d => d.id))⟩ ∧
    enhanced_chat_filter chatDb chatUser true (some ⟨none⟩)
      = some ⟨some ((get_user_accessible_documents chatDb chatUser).map
          (fun d => d.id))⟩ ∧
    enhanced_chat_filter chatDb chatUser true none = none :=
  enhanced_chat_filter_amended chatDb chatUser ["d1", "dX"] (by decide)

/-- A document table in which id "d1" is already registered. -/
def preRegisteredDocs : List Document :=
  [{ id := "d1", filename := "first.txt", owner_id := 1,
     is_public := false }]

/-- C8 counterexample: registering the already-registered id "d1" again
does not produce a Conflict from this core — the failure is the generic
storage-layer one. -/
theorem create_document_record_no_conflict :
    create_document_record preRegisteredDocs "d1" "second.txt" 2 false
      = .error .storageFailure ∧
    create_document_record preRegisteredDocs "d1" "second.txt" 2 false
      ≠ .error .conflict := by
  refine ⟨rfl, ?_⟩
  intro h
  have h2 : (Except.error DbError.storageFailure :
      Except DbError (List Document × Document)) = Except.error DbError.conflict := h
  injection h2 with h3
  cases h3

/-- C8 amended: registering a document id that is already present fails,
but with the storage layer's generic primary-key failure rather than a
Conflict raised by this core, which performs no duplicate check of its
own; a fresh id is registered successfully. -/
theorem create_document_record_amended (documents : List Document)
    (doc_id filename : String) (owner_id : Nat) (is_public : Bool)
    (hdup : documents.any (fun d => d.id == doc_id) = true) :
    create_document_record documents doc_id filename owner_id is_public
      = .error .storageFailure := by
  unfold create_document_record
  simp [hdup]

/-- Witness for C8's amended claim at the concrete one-document table. -/
theorem create_document_record_amended_witness :
    create_document_record preRegisteredDocs "d1" "second.txt" 2 false
      = .error .storageFailure :=
  create_document_record_amended preRegisteredDocs "d1" "second.txt" 2
    false (by decide)

/-- A concrete inactive model. -/
def inactiveModel : LLMModel :=
  { id := 1, name := "m1", provider := "ollama", model_path := "p",
    is_active := false }

/-- An explicit grant of `inactiveModel` to `activeUser`. -/
def inactiveModelGrant : UserModelAccess :=
  { user_id := 2, model_id := 1 }

/-- C9 counterexample: `activeUser` is not SUPERADMIN and holds an
explicit grant for `inactiveModel`, yet the model is not in the
accessible set — the claim's "exactly the models with an explicit
grant" fails because the code also filters on the active flag. -/
theorem accessible_models_excludes_inactive_grant :
    activeUser.role ≠ .superadmin ∧
    inactiveModelGrant.user_id = activeUser.id ∧
    inactiveModelGrant.model_id = inactiveModel.id ∧
    inactiveModel ∉
      get_user_accessible_models [inactiveModel] [inactiveModelGrant]
        activeUser := by
  decide

/-- C9 amended: a model is accessible exactly when it is active and
either the caller is SUPERADMIN or an explicit (user, model) grant
exists; no ownership or publicity path contributes. -/
theorem get_user_accessible_models_amended (models : List LLMModel)
    (access : List UserModelAccess) (user : User) (m : LLMModel) :
    m ∈ get_user_accessible_models models access user ↔
      (m ∈ models ∧ m.is_active = true ∧
        (user.role = .superadmin ∨
          access.any (fun a => a.user_id == user.id && a.model_id == m.id)
            = true)) := by
  unfold get_user_accessible_models get_llm_models
  rw [role_value_superadmin]
  by_cases hr : user.role = UserRole.superadmin
  · simp [hr, List.mem_filter]
  · have : (user.role == UserRole.superadmin) = false := by
      simp [hr]
    rw [this]
    simp only [Bool.false_eq_true, if_false, List.mem_filter,
      Bool.and_eq_true]
    constructor
    · rintro ⟨hm, hg, ha⟩
      exact ⟨hm, ha, Or.inr hg⟩
    · rintro ⟨hm, ha, hg | hg⟩
      · exact absurd hg hr
      · exact ⟨hm, hg, ha⟩

/-- Witness for C3's amended claim: the inactive user authenticates with
correct credentials, and a valid token for the active user resolves to a
user whose active flag is true. -/
theorem authenticate_user_amended_witness :
    authenticate_user [inactiveUser, activeUser] "carol" "correct-password"
      = some inactiveUser ∧
    activeUser.is_active = true :=
  authenticate_user_amended [inactiveUser, activeUser] "carol"
    "correct-password" inactiveUser "s" 10
    (create_access_token "s" activeUser 0) activeUser rfl rfl (by rfl)

end PrivateGPT
